import Mathlib

/-!
# openAI.js: the query pipeline and its response sanitizer

A shallow embedding of `src/openAI.js`.

* JavaScript strings are sequences of UTF-16 code units (`JsString`); the regular expression
  of `removeSourceReferences` has no `u` flag, so it is matched code unit by code unit.
* The regular expression is kept as data (`sourceReferencePattern`) and run by a backtracking
  matcher with greedy quantifiers; `replaceFrom` is the global `String.prototype.replace`
  with the empty replacement.
* The remote service (the axios request and the OpenAI client) is a record of state-passing
  operations (`Service`); every function of the pipeline returns its result, the service
  state it leaves behind and the events it issued, in order (`Outcome`).
* A rejected promise or a thrown error is `Except.error`.
-/

/-! ## Strings -/

/-- A JavaScript string: its UTF-16 code units. -/
abbrev JsString := List Nat

/-- UTF-16 encoding of one Unicode scalar value. -/
def utf16 (c : Char) : List Nat :=
  if c.toNat < 0x10000 then [c.toNat]
  else [0xD800 + (c.toNat - 0x10000) / 0x400, 0xDC00 + (c.toNat - 0x10000) % 0x400]

/-- The JavaScript string written by a literal. -/
def js (s : String) : JsString := s.toList.flatMap utf16

/-! ## The regular expression `/【\d+:\d+†source】/g` (openAI.js line 120) -/

/-- One pattern character: a literal code unit, or the class `\d` (ASCII digits only). -/
inductive Atom where
  | unit (c : Nat)
  | digit
deriving DecidableEq

/-- A pattern term: an atom, or an atom under the greedy quantifier `+`. -/
inductive Term where
  | one (a : Atom)
  | plus (a : Atom)
deriving DecidableEq

/-- Does the atom accept the code unit. -/
def Atom.test : Atom → Nat → Bool
  | .unit c, x => x == c
  | .digit, x => decide (0x30 ≤ x) && decide (x ≤ 0x39)

/-- Greedy repetition of `a` (zero or more) followed by the continuation `k`: the longest
repetition is tried first and shorter ones on backtracking. The result is the number of code
units matched. -/
def matchStar (a : Atom) (k : JsString → Option Nat) : JsString → Option Nat
  | [] => k []
  | x :: xs =>
    if a.test x then
      match matchStar a k xs with
      | some n => some (n + 1)
      | none => k (x :: xs)
    else k (x :: xs)

/-- Backtracking match of a sequence of terms at the start of the input; the result is the
length of the match (the end index relative to the start). -/
def matchTerms : List Term → JsString → Option Nat
  | [], _ => some 0
  | _ :: _, [] => none
  | .one a :: ts, x :: xs =>
    if a.test x then (matchTerms ts xs).map (· + 1) else none
  | .plus a :: ts, x :: xs =>
    if a.test x then (matchStar a (matchTerms ts) xs).map (· + 1) else none

/-- Global replace by the empty string: `s.replace(/p/g, '')`. The first argument counts the
code units of the current match still to be skipped (the search resumes at the end index of
the match); at 0 a match is tried at the current index, and where none starts (or only an
empty one) the code unit is kept and the search moves one index on. -/
def replaceFrom (p : List Term) : Nat → JsString → JsString
  | _, [] => []
  | k + 1, _ :: xs => replaceFrom p k xs
  | 0, x :: xs =>
    match matchTerms p (x :: xs) with
    | some (n + 1) => replaceFrom p n xs
    | _ => x :: replaceFrom p 0 xs

/-- The pattern 【 \d+ : \d+ † s o u r c e 】 of line 120. -/
def sourceReferencePattern : List Term :=
  [.one (.unit 0x3010), .plus .digit, .one (.unit 0x3A), .plus .digit,
   .one (.unit 0x2020), .one (.unit 0x73), .one (.unit 0x6F), .one (.unit 0x75),
   .one (.unit 0x72), .one (.unit 0x63), .one (.unit 0x65), .one (.unit 0x3011)]

/-- Lines 119-122: `inputString.replace(sourceReferencePattern, '')`. -/
def removeSourceReferences (inputString : JsString) : JsString :=
  replaceFrom sourceReferencePattern 0 inputString

/-! ## The citation marker as the specification words it -/

/-- An ASCII digit. -/
def IsDigit (c : Nat) : Prop := 0x30 ≤ c ∧ c ≤ 0x39

instance : DecidablePred IsDigit := fun c => by unfold IsDigit; infer_instance

/-- The code units of the literal tail †source】. -/
def markerTail : JsString := [0x2020, 0x73, 0x6F, 0x75, 0x72, 0x63, 0x65, 0x3011]

/-- A citation marker 【digits:digits†source】, one or more ASCII digits on each side of the
colon. -/
def IsMarker (m : JsString) : Prop :=
  ∃ d1 d2 : JsString, d1 ≠ [] ∧ d2 ≠ [] ∧ (∀ c ∈ d1, IsDigit c) ∧ (∀ c ∈ d2, IsDigit c) ∧
    m = 0x3010 :: d1 ++ 0x3A :: d2 ++ js "†source】"

/-- A marker starts at the first code unit of the text. -/
def StartsWithMarker (x : JsString) : Prop :=
  ∃ m rest : JsString, IsMarker m ∧ x = m ++ rest

/-- A marker occurs somewhere in the text. -/
def ContainsMarker (x : JsString) : Prop :=
  ∃ a m b : JsString, IsMarker m ∧ x = a ++ m ++ b

/-- Specification of the sanitizer, in the words of the claim: reading the text from the
left, a marker that starts at the current position is deleted and reading resumes behind it
(leftmost, non-overlapping); a code unit at which no marker starts is kept, in place. -/
inductive SpecSanitized : JsString → JsString → Prop
  | done : SpecSanitized [] []
  | drop (m rest out : JsString) :
      IsMarker m → SpecSanitized rest out → SpecSanitized (m ++ rest) out
  | keep (c : Nat) (rest out : JsString) :
      ¬ StartsWithMarker (c :: rest) → SpecSanitized rest out →
        SpecSanitized (c :: rest) (c :: out)

/-- Every code unit 【 of the text starts a match of the pattern. -/
def everyOpenerMatches : JsString → Bool
  | [] => true
  | c :: xs =>
    (c != 0x3010 || (matchTerms sourceReferencePattern (c :: xs)).isSome) &&
      everyOpenerMatches xs

/-! ## Data model -/

/-- A JavaScript value as far as `typeof message === 'string'` (line 40) tells values apart:
a string, or any other value. -/
inductive Value where
  | str (s : JsString)
  | other (tag : Nat)
deriving DecidableEq

/-- A JavaScript error value: the name of its class, its message, and the property
`response` an axios rejection carries when the server answered (its `data`); on every other
error `response` is undefined. -/
structure JsError where
  name : JsString
  message : JsString
  response : Option Value
deriving DecidableEq

/-- The second argument of a console call: an error object or a plain value. -/
inductive Logged where
  | error (e : JsError)
  | value (v : Value)
deriving DecidableEq

/-- The `text` object of a text content block. -/
structure TextObject where
  value : Value
deriving DecidableEq

/-- A content block of a message. Only text blocks have the property `text`; on the other
kinds (image_file, image_url, refusal) it is undefined. -/
structure ContentBlock where
  type : JsString
  text : Option TextObject
deriving DecidableEq

/-- A thread message as the list-messages call returns it. -/
structure Message where
  role : JsString
  content : List ContentBlock
  created_at : Nat
deriving DecidableEq

/-- The assistant object (`response.data`, line 60). -/
structure Assistant where
  id : JsString
deriving DecidableEq

/-- The thread object. -/
structure Thread where
  id : JsString
deriving DecidableEq

/-- The run object returned by `createAndPoll`. -/
structure Run where
  status : JsString
  thread_id : JsString
deriving DecidableEq

/-! ## Effects -/

/-- What the program does to the outside world, in order: the five remote operations,
console output, and the readline interface. -/
inductive Event where
  | getAssistant (assistantId : JsString)
  | threadsCreate
  | messagesCreate (threadId role content : JsString)
  | runsCreateAndPoll (threadId assistantId : JsString)
  | messagesList (threadId : JsString)
  | consoleError (label : JsString) (what : Logged)
  | consoleLog (label : JsString) (response : Value)
  | question (query : JsString)
  | close
  | unhandledRejection (error : JsError)
deriving DecidableEq

/-- The events that are calls to the remote service. -/
def Event.isRemote : Event → Bool
  | .getAssistant _ => true
  | .threadsCreate => true
  | .messagesCreate _ _ _ => true
  | .runsCreateAndPoll _ _ => true
  | .messagesList _ => true
  | _ => false

/-- The remote service with state `σ`: each operation answers (or rejects) and moves the
service to its next state. `createAndPoll` is the client library's call; it is taken as one
operation that returns the run it ends on. -/
structure Service (σ : Type) where
  getAssistant : JsString → σ → Except JsError Assistant × σ
  threadsCreate : σ → Except JsError Thread × σ
  messagesCreate : JsString → JsString → JsString → σ → Except JsError Unit × σ
  runsCreateAndPoll : JsString → JsString → σ → Except JsError Run × σ
  messagesList : JsString → σ → Except JsError (List Message) × σ

/-- The outcome of running an async function: the value it resolves to or the error it
rejects with, the service state afterwards, and the events issued. -/
structure Outcome (σ α : Type) where
  result : Except JsError α
  state : σ
  events : List Event

/-- An async computation over the service state. -/
def Js (σ α : Type) : Type := σ → Outcome σ α

/-- Resolve to a value. -/
def Js.pure {σ α : Type} (a : α) : Js σ α := fun s => ⟨.ok a, s, []⟩

/-- Sequencing (`await`): a rejection skips the rest. -/
def Js.bind {σ α β : Type} (m : Js σ α) (f : α → Js σ β) : Js σ β := fun s =>
  match m s with
  | ⟨.ok a, s1, ev⟩ => ⟨(f a s1).result, (f a s1).state, ev ++ (f a s1).events⟩
  | ⟨.error e, s1, ev⟩ => ⟨.error e, s1, ev⟩

/-- The statement `throw e`. -/
def Js.throw {σ α : Type} (e : JsError) : Js σ α := fun s => ⟨.error e, s, []⟩

/-- The statement `try ... catch (error) ...`. -/
def Js.tryCatch {σ α : Type} (m : Js σ α) (handler : JsError → Js σ α) : Js σ α := fun s =>
  match m s with
  | ⟨.ok a, s1, ev⟩ => ⟨.ok a, s1, ev⟩
  | ⟨.error e, s1, ev⟩ =>
    ⟨(handler e s1).result, (handler e s1).state, ev ++ (handler e s1).events⟩

/-- Issue one event. -/
def Js.emit {σ : Type} (e : Event) : Js σ Unit := fun s => ⟨.ok (), s, [e]⟩

/-- One call to the remote service, recorded as the event `e`. -/
def Js.request {σ α : Type} (e : Event) (op : σ → Except JsError α × σ) : Js σ α := fun s =>
  ⟨(op s).1, (op s).2, [e]⟩

/-- A computation without effects that returns or throws. -/
def Js.ofExcept {σ α : Type} (r : Except JsError α) : Js σ α := fun s => ⟨r, s, []⟩

instance (σ : Type) : Monad (Js σ) where
  pure := Js.pure
  bind := Js.bind

/-- The error `new Error(message)`. -/
def newError (message : JsString) : JsError := ⟨js "Error", message, none⟩

/-- The TypeError thrown when `property` is read from undefined. -/
def typeError (property : String) : JsError :=
  ⟨js "TypeError", js ("Cannot read properties of undefined (reading '" ++ property ++ "')"),
    none⟩

/-- Line 63: `error.response ? error.response.data : error.message`. -/
def rejectionDetail (error : JsError) : Value :=
  match error.response with
  | some data => data
  | none => .str error.message

/-! ## The pipeline (openAI.js lines 15-122) -/

/-- Lines 39-44: a string is sanitized, any other value is returned as it is. -/
def processResponseMessage (message : Value) : Value :=
  match message with
  | .str s => .str (removeSourceReferences s)
  | other => other

/-- Lines 50-66: the axios request; on any rejection the response data (or, without a
response, the message) is logged and `new Error('Error retrieving assistant')` is thrown. -/
def retrieveAssistant {σ : Type} (svc : Service σ) (ASSISTANT_ID : JsString) : Js σ Assistant :=
  Js.tryCatch (Js.request (.getAssistant ASSISTANT_ID) (svc.getAssistant ASSISTANT_ID))
    fun error => do
      Js.emit (.consoleError (js "Error retrieving assistant:") (.value (rejectionDetail error)))
      Js.throw (newError (js "Error retrieving assistant"))

/-- Lines 72-74. -/
def createThread {σ : Type} (svc : Service σ) : Js σ Thread :=
  Js.request .threadsCreate svc.threadsCreate

/-- Lines 80-88: the message is created with role user and the content as given. -/
def addMessageToThread {σ : Type} (svc : Service σ) (threadId messageContent : JsString) :
    Js σ Unit :=
  Js.request (.messagesCreate threadId (js "user") messageContent)
    (svc.messagesCreate threadId (js "user") messageContent)

/-- Lines 94-101. -/
def createAndPollRun {σ : Type} (svc : Service σ) (threadId assistantId : JsString) : Js σ Run :=
  Js.request (.runsCreateAndPoll threadId assistantId) (svc.runsCreateAndPoll threadId assistantId)

/-- Lines 109-112: `messages.data.find(message => message.role === 'assistant')` followed by
`responseMessage.content[0].text.value`; each property read from undefined throws. -/
def responseMessageValue (messages : List Message) : Except JsError Value :=
  match messages.find? (fun message => message.role == js "assistant") with
  | none => .error (typeError "content")
  | some responseMessage =>
    match responseMessage.content with
    | [] => .error (typeError "text")
    | block :: _ =>
      match block.text with
      | none => .error (typeError "value")
      | some text => .ok text.value

/-- Lines 107-113. -/
def getAssistantResponse {σ : Type} (svc : Service σ) (threadId : JsString) : Js σ Value := do
  let messages ← Js.request (.messagesList threadId) (svc.messagesList threadId)
  Js.ofExcept (responseMessageValue messages)

/-- Lines 15-33. -/
def getChatGPTResponse {σ : Type} (svc : Service σ) (ASSISTANT_ID requestMessage : JsString) :
    Js σ Value :=
  Js.tryCatch
    (do
      let assistant ← retrieveAssistant svc ASSISTANT_ID
      let thread ← createThread svc
      addMessageToThread svc thread.id requestMessage
      let run ← createAndPollRun svc thread.id assistant.id
      if run.status = js "completed" then
        let responseMessage ← getAssistantResponse svc run.thread_id
        let responseMessage := processResponseMessage responseMessage
        return responseMessage
      else
        return .str (js "Run did not complete successfully."))
    fun error => do
      Js.emit (.consoleError (js "Error:") (.error error))
      Js.throw error

/-! ## The interactive loop (lines 130-147) -/

/-- A lead (high) surrogate. -/
def isLeadSurrogate (u : Nat) : Bool := decide (0xD800 ≤ u) && decide (u ≤ 0xDBFF)

/-- A trail (low) surrogate. -/
def isTrailSurrogate (u : Nat) : Bool := decide (0xDC00 ≤ u) && decide (u ≤ 0xDFFF)

/-- The code points of a string: a surrogate pair is one code point, any other code unit
(an unpaired surrogate too) is its own. -/
def toCodePoints : JsString → List Nat
  | [] => []
  | [u] => [u]
  | u :: v :: rest =>
    if isLeadSurrogate u && isTrailSurrogate v then
      (0x10000 + (u - 0xD800) * 0x400 + (v - 0xDC00)) :: toCodePoints rest
    else u :: toCodePoints (v :: rest)

/-- UTF-16 encoding of a code point. -/
def encodeCodePoint (c : Nat) : List Nat :=
  if c < 0x10000 then [c]
  else [0xD800 + (c - 0x10000) / 0x400, 0xDC00 + (c - 0x10000) % 0x400]

/-- Uppercase mapping of one code point: a-z to A-Z, the other ASCII code points to
themselves; outside ASCII the Unicode table `ext`, which belongs to the language and is
taken as a parameter. -/
def upperCodePoint (ext : Nat → List Nat) (c : Nat) : List Nat :=
  if 0x61 ≤ c ∧ c ≤ 0x7A then [c - 0x20]
  else if c < 0x80 then [c]
  else ext c

/-- The builtin `String.prototype.toUpperCase`: every code point is replaced by its uppercase
mapping. -/
def toUpperCase (ext : Nat → List Nat) (s : JsString) : JsString :=
  ((toCodePoints s).flatMap (upperCodePoint ext)).flatMap encodeCodePoint

/-- The prompt of line 136. -/
def questionText : JsString := js "Enter your question (or X to exit): "

/-- Lines 135-145, run on the lines that standard input delivers. Each round asks the
question; on an answer whose uppercase form is X the interface is closed; otherwise the
answer goes to `getChatGPTResponse`, the response is logged and the next round starts. When
`getChatGPTResponse` rejects, the async callback rejects at line 140: lines 141 and 142 are
not run and nothing handles the rejection. With no line left the question stays pending. -/
def askQuestion {σ : Type} (ext : Nat → List Nat) (svc : Service σ) (ASSISTANT_ID : JsString) :
    List JsString → σ → List Event
  | [], _ => [.question questionText]
  | input :: lines, s =>
    .question questionText ::
      if toUpperCase ext input = js "X" then [.close]
      else
        match getChatGPTResponse svc ASSISTANT_ID input s with
        | ⟨.ok response, s1, ev⟩ =>
          ev ++ .consoleLog (js "Response:") response :: askQuestion ext svc ASSISTANT_ID lines s1
        | ⟨.error e, _, ev⟩ => ev ++ [.unhandledRejection e]

/-! ## Concrete services and inputs -/

/-- The answers of a service that gives the same answer to every call of an operation. -/
structure Script where
  assistant : Except JsError Assistant
  thread : Except JsError Thread
  append : Except JsError Unit
  run : Except JsError Run
  messages : Except JsError (List Message)

/-- The service that follows a script; its state counts the calls received. -/
def scripted (sc : Script) : Service Nat where
  getAssistant := fun _ n => (sc.assistant, n + 1)
  threadsCreate := fun n => (sc.thread, n + 1)
  messagesCreate := fun _ _ _ n => (sc.append, n + 1)
  runsCreateAndPoll := fun _ _ n => (sc.run, n + 1)
  messagesList := fun _ n => (sc.messages, n + 1)

/-- An uppercase table that maps every code point outside ASCII to itself. -/
def asciiOnly (c : Nat) : List Nat := [c]

/-- A text content block. -/
def textBlock (s : String) : ContentBlock := ⟨js "text", some ⟨.str (js s)⟩⟩

/-- An image content block: it has no property `text`. -/
def imageBlock : ContentBlock := ⟨js "image_file", none⟩

/-- Every call succeeds, the run completes, and the thread holds the given messages. -/
def sampleScript (msgs : List Message) : Script where
  assistant := .ok ⟨js "asst_1"⟩
  thread := .ok ⟨js "thread_1"⟩
  append := .ok ()
  run := .ok ⟨js "completed", js "thread_1"⟩
  messages := .ok msgs

/-- The assistant request is rejected with status 404; the response carries a JSON body. -/
def notFoundScript : Script where
  assistant := .error ⟨js "AxiosError", js "Request failed with status code 404",
    some (.other 404)⟩
  thread := .ok ⟨js "thread_1"⟩
  append := .ok ()
  run := .ok ⟨js "completed", js "thread_1"⟩
  messages := .ok []

/-- Every call succeeds and the run ends with status failed. -/
def failedScript : Script where
  assistant := .ok ⟨js "asst_1"⟩
  thread := .ok ⟨js "thread_1"⟩
  append := .ok ()
  run := .ok ⟨js "failed", js "thread_1"⟩
  messages := .ok []

/-! ## The matcher on the citation pattern -/

theorem digit_test (c : Nat) : Atom.digit.test c = true ↔ IsDigit c := by
  simp [Atom.test, IsDigit]

/-- A successful greedy repetition splits the input into accepted code units and a rest on
which the continuation succeeds. -/
theorem matchStar_some (a : Atom) (k : JsString → Option Nat) :
    ∀ (s : JsString) (n : Nat), matchStar a k s = some n →
      ∃ (d r : JsString) (j : Nat), s = d ++ r ∧ (∀ c ∈ d, a.test c = true) ∧
        k r = some j ∧ n = d.length + j := by
  intro s
  induction s with
  | nil =>
    intro n h
    exact ⟨[], [], n, rfl, by simp, by simpa [matchStar] using h, by simp⟩
  | cons x xs ih =>
    intro n h
    rw [matchStar] at h
    by_cases hx : a.test x = true
    · rw [if_pos hx] at h
      cases hs : matchStar a k xs with
      | some j =>
        rw [hs] at h
        obtain ⟨d, r, i, h1, h2, h3, h4⟩ := ih j hs
        refine ⟨x :: d, r, i, by simp [h1], ?_, h3, ?_⟩
        · intro c hc
          rcases List.mem_cons.mp hc with rfl | hc
          · exact hx
          · exact h2 c hc
        · simp only [Option.some.injEq] at h
          simp only [List.length_cons]
          omega
      | none =>
        rw [hs] at h
        exact ⟨[], x :: xs, n, rfl, by simp, h, by simp⟩
    · rw [if_neg hx] at h
      exact ⟨[], x :: xs, n, rfl, by simp, h, by simp⟩

/-- When the repetition is stopped by a code unit the atom rejects and the continuation
succeeds there, the repetition takes all the accepted code units. -/
theorem matchStar_append (a : Atom) (k : JsString → Option Nat) (c : Nat) (tl : JsString) (j : Nat)
    (hc : a.test c = false) (hk : k (c :: tl) = some j) :
    ∀ d : JsString, (∀ x ∈ d, a.test x = true) → matchStar a k (d ++ c :: tl) = some (d.length + j) := by
  intro d
  induction d with
  | nil =>
    intro _
    simp [matchStar, hc, hk]
  | cons x xs ih =>
    intro h
    have hx : a.test x = true := h x (List.mem_cons_self _ _)
    have hxs := ih (fun y hy => h y (List.mem_cons_of_mem _ hy))
    show matchStar a k (x :: (xs ++ c :: tl)) = some ((x :: xs).length + j)
    rw [matchStar, if_pos hx, hxs]
    simp only [List.length_cons, Option.some.injEq]
    omega

/-- A sequence of literal code units matches exactly the texts that start with it. -/
theorem matchTerms_lits (l : JsString) :
    ∀ (s : JsString) (n : Nat),
      matchTerms (l.map fun c => Term.one (Atom.unit c)) s = some n ↔
        ∃ rest, s = l ++ rest ∧ n = l.length := by
  induction l with
  | nil =>
    intro s n
    simp [matchTerms, eq_comm]
  | cons c cs ih =>
    intro s n
    cases s with
    | nil => simp [matchTerms]
    | cons x xs =>
      simp only [List.map_cons, matchTerms, Atom.test, beq_iff_eq]
      by_cases hx : x = c
      · subst hx
        simp only [if_true, Option.map_eq_some', ih, List.cons_append, List.cons.injEq, true_and,
          List.length_cons]
        constructor
        · rintro ⟨j, ⟨rest, h1, h2⟩, h3⟩
          exact ⟨rest, h1, by omega⟩
        · rintro ⟨rest, h1, h2⟩
          exact ⟨cs.length, ⟨rest, h1, rfl⟩, by omega⟩
      · simp only [hx, if_false, List.cons_append, List.cons.injEq, false_and, exists_false]
        simp

theorem matchTerms_one (a : Atom) (ts : List Term) (x : Nat) (xs : JsString) :
    matchTerms (.one a :: ts) (x :: xs) =
      if a.test x then (matchTerms ts xs).map (· + 1) else none := by
  rw [matchTerms]

theorem matchTerms_plus (a : Atom) (ts : List Term) (x : Nat) (xs : JsString) :
    matchTerms (.plus a :: ts) (x :: xs) =
      if a.test x then (matchStar a (matchTerms ts) xs).map (· + 1) else none := by
  rw [matchTerms]

theorem markerTail_eq : js "†source】" = markerTail := by decide

theorem pattern_eq :
    sourceReferencePattern =
      .one (.unit 0x3010) :: .plus .digit :: .one (.unit 0x3A) :: .plus .digit ::
        markerTail.map fun c => Term.one (Atom.unit c) := by
  decide

/-- The pattern matches a marker at the start of a text, over the length of the marker. -/
theorem matchTerms_marker (m rest : JsString) (hm : IsMarker m) :
    matchTerms sourceReferencePattern (m ++ rest) = some m.length := by
  obtain ⟨d1, d2, h1, h2, hd1, hd2, rfl⟩ := hm
  obtain ⟨a, d1, rfl⟩ := List.exists_cons_of_ne_nil h1
  obtain ⟨b, d2, rfl⟩ := List.exists_cons_of_ne_nil h2
  have ha : Atom.digit.test a = true := (digit_test a).2 (hd1 a (List.mem_cons_self _ _))
  have hb : Atom.digit.test b = true := (digit_test b).2 (hd2 b (List.mem_cons_self _ _))
  have hd1t : ∀ x ∈ d1, Atom.digit.test x = true :=
    fun x hx => (digit_test x).2 (hd1 x (List.mem_cons_of_mem _ hx))
  have hd2t : ∀ x ∈ d2, Atom.digit.test x = true :=
    fun x hx => (digit_test x).2 (hd2 x (List.mem_cons_of_mem _ hx))
  have htail : matchTerms (markerTail.map fun c => Term.one (Atom.unit c))
      (0x2020 :: ([0x73, 0x6F, 0x75, 0x72, 0x63, 0x65, 0x3011] ++ rest)) = some 8 :=
    (matchTerms_lits markerTail _ _).2 ⟨rest, rfl, rfl⟩
  have h2nd := matchStar_append Atom.digit _ 0x2020 _ _ (by decide) htail d2 hd2t
  have hk : matchTerms (.one (.unit 0x3A) :: .plus .digit ::
        markerTail.map fun c => Term.one (Atom.unit c))
      (0x3A :: b :: (d2 ++ 0x2020 :: ([0x73, 0x6F, 0x75, 0x72, 0x63, 0x65, 0x3011] ++ rest))) =
      some (d2.length + 8 + 1 + 1) := by
    rw [matchTerms_one, if_pos (by decide), matchTerms_plus, if_pos hb, h2nd]
    rfl
  have h1st := matchStar_append Atom.digit _ 0x3A _ _ (by decide) hk d1 hd1t
  have hs : (0x3010 :: (a :: d1) ++ 0x3A :: (b :: d2) ++ js "†source】") ++ rest =
      0x3010 :: a :: (d1 ++ 0x3A :: b ::
        (d2 ++ 0x2020 :: ([0x73, 0x6F, 0x75, 0x72, 0x63, 0x65, 0x3011] ++ rest))) := by
    rw [markerTail_eq]
    simp [markerTail]
  rw [hs, pattern_eq, matchTerms_one, if_pos (by decide), matchTerms_plus, if_pos ha, h1st,
    markerTail_eq]
  simp only [Option.map_some', List.length_cons, List.length_append, markerTail, List.length_nil,
    Option.some.injEq]
  omega

theorem matchTerms_nil (t : Term) (ts : List Term) : matchTerms (t :: ts) [] = none := by
  rw [matchTerms]

theorem matchTerms_one_some (a : Atom) (ts : List Term) (s : JsString) (n : Nat)
    (h : matchTerms (.one a :: ts) s = some n) :
    ∃ x xs j, s = x :: xs ∧ a.test x = true ∧ matchTerms ts xs = some j ∧ n = j + 1 := by
  cases s with
  | nil => rw [matchTerms_nil] at h; cases h
  | cons x xs =>
    rw [matchTerms_one] at h
    by_cases hx : a.test x = true
    · rw [if_pos hx] at h
      obtain ⟨j, hj, rfl⟩ := Option.map_eq_some'.1 h
      exact ⟨x, xs, j, rfl, hx, hj, rfl⟩
    · rw [if_neg hx] at h; cases h

theorem matchTerms_plus_some (a : Atom) (ts : List Term) (s : JsString) (n : Nat)
    (h : matchTerms (.plus a :: ts) s = some n) :
    ∃ x d r j, s = x :: d ++ r ∧ (∀ c ∈ x :: d, a.test c = true) ∧
      matchTerms ts r = some j ∧ n = (x :: d).length + j := by
  cases s with
  | nil => rw [matchTerms_nil] at h; cases h
  | cons x xs =>
    rw [matchTerms_plus] at h
    by_cases hx : a.test x = true
    · rw [if_pos hx] at h
      obtain ⟨i, hi, rfl⟩ := Option.map_eq_some'.1 h
      obtain ⟨d, r, j, h1, h2, h3, rfl⟩ := matchStar_some a _ xs i hi
      refine ⟨x, d, r, j, by simp [h1], ?_, h3, by simp only [List.length_cons]; omega⟩
      intro c hc
      rcases List.mem_cons.mp hc with rfl | hc
      · exact hx
      · exact h2 c hc
    · rw [if_neg hx] at h; cases h

/-- Whatever the pattern matches at the start of a text is a marker. -/
theorem matchTerms_some (s : JsString) (n : Nat)
    (h : matchTerms sourceReferencePattern s = some n) :
    ∃ m rest, IsMarker m ∧ s = m ++ rest ∧ n = m.length := by
  rw [pattern_eq] at h
  obtain ⟨x, s1, n1, rfl, hx, h1, rfl⟩ := matchTerms_one_some _ _ _ _ h
  obtain ⟨a, d1, s2, n2, rfl, hd1, h2, rfl⟩ := matchTerms_plus_some _ _ _ _ h1
  obtain ⟨c, s3, n3, rfl, hc, h3, rfl⟩ := matchTerms_one_some _ _ _ _ h2
  obtain ⟨b, d2, s4, n4, rfl, hd2, h4, rfl⟩ := matchTerms_plus_some _ _ _ _ h3
  obtain ⟨rest, rfl, rfl⟩ := (matchTerms_lits markerTail _ _).1 h4
  have hx : x = 0x3010 := by simpa [Atom.test] using hx
  have hc : c = 0x3A := by simpa [Atom.test] using hc
  subst hx hc
  refine ⟨0x3010 :: (a :: d1) ++ 0x3A :: (b :: d2) ++ js "†source】", rest,
    ⟨a :: d1, b :: d2, by simp, by simp, fun y hy => (digit_test y).1 (hd1 y hy),
      fun y hy => (digit_test y).1 (hd2 y hy), rfl⟩, ?_, ?_⟩
  · rw [markerTail_eq]; simp
  · rw [markerTail_eq]; simp only [List.length_cons, List.length_append]; omega

theorem startsWithMarker_iff (s : JsString) :
    StartsWithMarker s ↔ ∃ n, matchTerms sourceReferencePattern s = some (n + 1) := by
  constructor
  · rintro ⟨m, rest, hm, rfl⟩
    refine ⟨m.length - 1, ?_⟩
    rw [matchTerms_marker m rest hm]
    obtain ⟨d1, d2, -, -, -, -, rfl⟩ := hm
    simp
  · rintro ⟨n, h⟩
    obtain ⟨m, rest, hm, rfl, -⟩ := matchTerms_some s _ h
    exact ⟨m, rest, hm, rfl⟩

theorem replaceFrom_match (p : List Term) (x : Nat) (xs : JsString) (n : Nat)
    (h : matchTerms p (x :: xs) = some (n + 1)) :
    replaceFrom p 0 (x :: xs) = replaceFrom p n xs := by
  rw [replaceFrom, h]

theorem replaceFrom_keep (p : List Term) (x : Nat) (xs : JsString)
    (h : ∀ n, matchTerms p (x :: xs) ≠ some (n + 1)) :
    replaceFrom p 0 (x :: xs) = x :: replaceFrom p 0 xs := by
  rw [replaceFrom]
  split
  · next n hn => exact absurd hn (h n)
  · rfl

theorem replaceFrom_skip (p : List Term) :
    ∀ (k : Nat) (s : JsString), replaceFrom p k s = replaceFrom p 0 (s.drop k) := by
  intro k
  induction k with
  | zero => intro s; simp
  | succ k ih =>
    intro s
    cases s with
    | nil => simp [replaceFrom]
    | cons x xs => rw [replaceFrom, ih]; simp

theorem replaceFrom_length_le (p : List Term) :
    ∀ (s : JsString) (k : Nat), (replaceFrom p k s).length ≤ s.length := by
  intro s
  induction s with
  | nil => intro k; simp [replaceFrom]
  | cons x xs ih =>
    intro k
    cases k with
    | succ k =>
      rw [replaceFrom]
      exact Nat.le_succ_of_le (ih k)
    | zero =>
      rw [replaceFrom]
      split
      · next n _ => exact Nat.le_succ_of_le (ih n)
      · simpa using ih 0

theorem isMarker_length_pos (m : JsString) (hm : IsMarker m) : 0 < m.length := by
  obtain ⟨d1, d2, -, -, -, -, rfl⟩ := hm
  simp

/-- A marker at the start of the text is deleted and the pass goes on behind it. -/
theorem removeSourceReferences_marker (m rest : JsString) (hm : IsMarker m) :
    removeSourceReferences (m ++ rest) = removeSourceReferences rest := by
  have hmatch := matchTerms_marker m rest hm
  have hpos := isMarker_length_pos m hm
  cases m with
  | nil => simp at hpos
  | cons c m =>
    unfold removeSourceReferences
    rw [List.cons_append] at hmatch ⊢
    rw [replaceFrom_match _ c (m ++ rest) m.length (by simpa using hmatch), replaceFrom_skip]
    simp

/-- A code unit at which no marker starts is kept. -/
theorem removeSourceReferences_keep (c : Nat) (rest : JsString)
    (h : ¬ StartsWithMarker (c :: rest)) :
    removeSourceReferences (c :: rest) = c :: removeSourceReferences rest := by
  unfold removeSourceReferences
  apply replaceFrom_keep
  intro n hn
  exact h ((startsWithMarker_iff _).2 ⟨n, hn⟩)

theorem specSanitized_removeSourceReferences :
    ∀ (n : Nat) (x : JsString), x.length ≤ n → SpecSanitized x (removeSourceReferences x) := by
  intro n
  induction n with
  | zero =>
    intro x hx
    have : x = [] := List.length_eq_zero.1 (Nat.le_zero.1 hx)
    subst this
    exact SpecSanitized.done
  | succ n ih =>
    intro x hx
    cases x with
    | nil => exact SpecSanitized.done
    | cons c xs =>
      by_cases hs : StartsWithMarker (c :: xs)
      · obtain ⟨m, rest, hm, hmr⟩ := hs
        rw [hmr, removeSourceReferences_marker m rest hm]
        refine SpecSanitized.drop m rest _ hm (ih rest ?_)
        have h1 := isMarker_length_pos m hm
        have h2 : (c :: xs).length = m.length + rest.length := by rw [hmr]; simp
        simp only [List.length_cons] at h2 hx
        omega
      · rw [removeSourceReferences_keep c xs hs]
        exact SpecSanitized.keep c xs _ hs (ih xs (by simpa using hx))

theorem specSanitized_unique (x y : JsString) (h : SpecSanitized x y) :
    y = removeSourceReferences x := by
  induction h with
  | done => rfl
  | drop m rest out hm _ ih => rw [removeSourceReferences_marker m rest hm]; exact ih
  | keep c rest out hs _ ih => rw [removeSourceReferences_keep c rest hs, ih]

theorem containsMarker_cons (c : Nat) (xs : JsString) :
    ContainsMarker (c :: xs) ↔ StartsWithMarker (c :: xs) ∨ ContainsMarker xs := by
  constructor
  · rintro ⟨a, m, b, hm, h⟩
    cases a with
    | nil => exact Or.inl ⟨m, b, hm, by simpa using h⟩
    | cons a0 a =>
      simp only [List.cons_append, List.cons.injEq] at h
      exact Or.inr ⟨a, m, b, hm, by simpa using h.2⟩
  · rintro (⟨m, rest, hm, h⟩ | ⟨a, m, b, hm, h⟩)
    · exact ⟨[], m, rest, hm, by simpa using h⟩
    · exact ⟨c :: a, m, b, hm, by simp [h]⟩

/-- The texts the sanitizer leaves unchanged are those without a marker. -/
theorem removeSourceReferences_eq_self_iff (x : JsString) :
    removeSourceReferences x = x ↔ ¬ ContainsMarker x := by
  induction x with
  | nil =>
    constructor
    · rintro - ⟨a, m, b, hm, h⟩
      have := isMarker_length_pos m hm
      have h2 := congrArg List.length h
      simp at h2
      omega
    · intro _; rfl
  | cons c xs ih =>
    rw [containsMarker_cons]
    by_cases hs : StartsWithMarker (c :: xs)
    · constructor
      · intro h
        exfalso
        obtain ⟨m, rest, hm, hmr⟩ := hs
        rw [hmr, removeSourceReferences_marker m rest hm] at h
        have h1 := replaceFrom_length_le sourceReferencePattern rest 0
        have h2 := congrArg List.length h
        have h3 := isMarker_length_pos m hm
        unfold removeSourceReferences at h2
        simp only [List.length_append] at h2
        omega
      · intro h; exact absurd (Or.inl hs) h
    · rw [removeSourceReferences_keep c xs hs]
      simp only [List.cons.injEq, true_and, ih, hs, false_or]

/-! ## The pipeline and the interactive loop -/

/-- Outcome of a query whose run does not end with status completed. -/
theorem notCompleted_outcome {σ : Type} (svc : Service σ)
    (ASSISTANT_ID requestMessage : JsString) (s0 s1 s2 s3 s4 : σ)
    (assistant : Assistant) (thread : Thread) (run : Run)
    (h1 : svc.getAssistant ASSISTANT_ID s0 = (.ok assistant, s1))
    (h2 : svc.threadsCreate s1 = (.ok thread, s2))
    (h3 : svc.messagesCreate thread.id (js "user") requestMessage s2 = (.ok (), s3))
    (h4 : svc.runsCreateAndPoll thread.id assistant.id s3 = (.ok run, s4))
    (hstatus : run.status ≠ js "completed") :
    getChatGPTResponse svc ASSISTANT_ID requestMessage s0 =
      ⟨.ok (.str (js "Run did not complete successfully.")), s4,
        [.getAssistant ASSISTANT_ID, .threadsCreate,
         .messagesCreate thread.id (js "user") requestMessage,
         .runsCreateAndPoll thread.id assistant.id]⟩ := by
  simp [getChatGPTResponse, Js.tryCatch, bind, Js.bind, retrieveAssistant, Js.request,
    createThread, addMessageToThread, createAndPollRun, h1, h2, h3, h4, hstatus, pure, Js.pure]

/-- C6: when no remote call fails and the run ends with status completed, one call of
getChatGPTResponse issues exactly the five remote operations in the order retrieve assistant,
create thread, append the user message, create-and-poll run, list messages, and its result is
processResponseMessage of what the extraction returns: for an extracted string,
removeSourceReferences of it. -/
theorem getChatGPTResponse_completed {σ : Type} (svc : Service σ)
    (ASSISTANT_ID requestMessage : JsString) (s0 s1 s2 s3 s4 s5 : σ)
    (assistant : Assistant) (thread : Thread) (run : Run) (messages : List Message)
    (h1 : svc.getAssistant ASSISTANT_ID s0 = (.ok assistant, s1))
    (h2 : svc.threadsCreate s1 = (.ok thread, s2))
    (h3 : svc.messagesCreate thread.id (js "user") requestMessage s2 = (.ok (), s3))
    (h4 : svc.runsCreateAndPoll thread.id assistant.id s3 = (.ok run, s4))
    (hstatus : run.status = js "completed")
    (h5 : svc.messagesList run.thread_id s4 = (.ok messages, s5)) :
    (getChatGPTResponse svc ASSISTANT_ID requestMessage s0).events.filter Event.isRemote =
        [.getAssistant ASSISTANT_ID, .threadsCreate,
         .messagesCreate thread.id (js "user") requestMessage,
         .runsCreateAndPoll thread.id assistant.id, .messagesList run.thread_id] ∧
      (getChatGPTResponse svc ASSISTANT_ID requestMessage s0).result =
        (responseMessageValue messages).map processResponseMessage ∧
      ∀ text : JsString, responseMessageValue messages = .ok (.str text) →
        (getChatGPTResponse svc ASSISTANT_ID requestMessage s0).result =
          .ok (.str (removeSourceReferences text)) := by
  cases hv : responseMessageValue messages with
  | error e =>
    simp [getChatGPTResponse, Js.tryCatch, bind, Js.bind, retrieveAssistant, Js.request,
      createThread, addMessageToThread, createAndPollRun, getAssistantResponse, Js.ofExcept,
      Js.emit, Js.throw, h1, h2, h3, h4, h5, hstatus, hv, pure, Js.pure, Event.isRemote,
      Except.map]
  | ok v =>
    simp [getChatGPTResponse, Js.tryCatch, bind, Js.bind, retrieveAssistant, Js.request,
      createThread, addMessageToThread, createAndPollRun, getAssistantResponse, Js.ofExcept,
      Js.emit, Js.throw, h1, h2, h3, h4, h5, hstatus, hv, pure, Js.pure, Event.isRemote,
      Except.map]
    intro text ht
    subst ht
    rfl

/-- Outcome of a query whose assistant request is rejected. -/
theorem assistantRejected_outcome {σ : Type} (svc : Service σ)
    (ASSISTANT_ID requestMessage : JsString) (s0 s1 : σ) (cause : JsError)
    (h1 : svc.getAssistant ASSISTANT_ID s0 = (.error cause, s1)) :
    getChatGPTResponse svc ASSISTANT_ID requestMessage s0 =
      ⟨.error (newError (js "Error retrieving assistant")), s1,
        [.getAssistant ASSISTANT_ID,
         .consoleError (js "Error retrieving assistant:") (.value (rejectionDetail cause)),
         .consoleError (js "Error:") (.error (newError (js "Error retrieving assistant")))]⟩ := by
  simp [getChatGPTResponse, Js.tryCatch, bind, Js.bind, retrieveAssistant, Js.request,
    Js.emit, Js.throw, h1]

theorem find_first_assistant (pre post : List Message) (m : Message)
    (hpre : ∀ u ∈ pre, u.role ≠ js "assistant") (hrole : m.role = js "assistant") :
    (pre ++ m :: post).find? (fun message => message.role == js "assistant") = some m := by
  induction pre with
  | nil => simp [List.find?, hrole]
  | cons u pre ih =>
    have hu : u.role ≠ js "assistant" := hpre u (List.mem_cons_self _ _)
    have := ih (fun v hv => hpre v (List.mem_cons_of_mem _ hv))
    have hb : (u.role == js "assistant") = false := by simpa using hu
    rw [List.cons_append, List.find?, hb]
    exact this

/-- The extraction returns the text of the first content block of the first assistant-role
message. -/
theorem responseMessageValue_first (pre post : List Message) (m : Message)
    (block : ContentBlock) (more : List ContentBlock) (text : TextObject)
    (hpre : ∀ u ∈ pre, u.role ≠ js "assistant") (hrole : m.role = js "assistant")
    (hcontent : m.content = block :: more) (htext : block.text = some text) :
    responseMessageValue (pre ++ m :: post) = .ok text.value := by
  unfold responseMessageValue
  rw [find_first_assistant pre post m hpre hrole]
  simp [hcontent, htext]

theorem getAssistantResponse_result {σ : Type} (svc : Service σ) (threadId : JsString)
    (s s1 : σ) (messages : List Message)
    (hlist : svc.messagesList threadId s = (.ok messages, s1)) :
    getAssistantResponse svc threadId s =
      ⟨responseMessageValue messages, s1, [.messagesList threadId]⟩ := by
  simp [getAssistantResponse, bind, Js.bind, Js.request, Js.ofExcept, hlist]

/-- C3 (amended): when the first assistant-role message of the list, in the order the service
gives, has a first content block that is text, getAssistantResponse returns the value of that
text; the message is not a user-role message, and when the list is in descending order of
creation no assistant-role message of the list is more recent. -/
theorem getAssistantResponse_first_assistant {σ : Type} (svc : Service σ) (threadId : JsString)
    (s s1 : σ) (pre post : List Message) (m : Message)
    (block : ContentBlock) (more : List ContentBlock) (text : TextObject)
    (hlist : svc.messagesList threadId s = (.ok (pre ++ m :: post), s1))
    (hpre : ∀ u ∈ pre, u.role ≠ js "assistant") (hrole : m.role = js "assistant")
    (hcontent : m.content = block :: more) (htext : block.text = some text) :
    (getAssistantResponse svc threadId s).result = .ok text.value ∧
      m.role ≠ js "user" ∧
      (List.Pairwise (fun a b : Message => b.created_at ≤ a.created_at) (pre ++ m :: post) →
        ∀ u ∈ pre ++ m :: post, u.role = js "assistant" → u.created_at ≤ m.created_at) := by
  refine ⟨?_, ?_, ?_⟩
  · rw [getAssistantResponse_result svc threadId s s1 _ hlist]
    exact responseMessageValue_first pre post m block more text hpre hrole hcontent htext
  · rw [hrole]; decide
  · intro hsorted u hu hur
    rw [List.pairwise_append] at hsorted
    rcases List.mem_append.1 hu with h | h
    · exact absurd hur (hpre u h)
    · rcases List.mem_cons.1 h with rfl | h
      · exact Nat.le_refl _
      · exact (List.pairwise_cons.1 hsorted.2.1).1 u h

/-- C8 (amended): when the first content block, content[0], of the first assistant-role
message is a text block whose value is a citation marker followed by a text t without
markers, getAssistantResponse followed by processResponseMessage yields exactly t. -/
theorem extract_then_sanitize {σ : Type} (svc : Service σ) (threadId : JsString)
    (s s1 : σ) (pre post : List Message) (m : Message)
    (type : JsString) (more : List ContentBlock) (marker t : JsString)
    (hlist : svc.messagesList threadId s = (.ok (pre ++ m :: post), s1))
    (hpre : ∀ u ∈ pre, u.role ≠ js "assistant") (hrole : m.role = js "assistant")
    (hcontent : m.content = ⟨type, some ⟨.str (marker ++ t)⟩⟩ :: more)
    (hmarker : IsMarker marker) (ht : ¬ ContainsMarker t) :
    (getAssistantResponse svc threadId s).result.map processResponseMessage = .ok (.str t) := by
  rw [getAssistantResponse_result svc threadId s s1 _ hlist,
    responseMessageValue_first pre post m _ more ⟨.str (marker ++ t)⟩ hpre hrole hcontent rfl]
  show Except.ok (processResponseMessage (.str (marker ++ t))) = _
  rw [processResponseMessage, removeSourceReferences_marker marker t hmarker,
    (removeSourceReferences_eq_self_iff t).2 ht]

theorem flatMap_singleton {α β : Type} (f : α → List β) (hf : ∀ a, f a ≠ []) (l : List α)
    (v : β) (h : l.flatMap f = [v]) : ∃ a, l = [a] ∧ f a = [v] := by
  cases l with
  | nil => simp at h
  | cons a l =>
    rw [List.flatMap_cons] at h
    have hfa := hf a
    cases hfa' : f a with
    | nil => exact absurd hfa' hfa
    | cons b bs =>
      rw [hfa'] at h
      simp only [List.cons_append, List.cons.injEq, List.append_eq_nil] at h
      obtain ⟨rfl, rfl, hl⟩ := h
      cases l with
      | nil => exact ⟨a, rfl, hfa'⟩
      | cons a2 l2 =>
        rw [List.flatMap_cons] at hl
        exact absurd (List.append_eq_nil.1 hl).1 (hf a2)

theorem encodeCodePoint_ne_nil (c : Nat) : encodeCodePoint c ≠ [] := by
  unfold encodeCodePoint
  split <;> simp

theorem encodeCodePoint_singleton (c v : Nat) (h : encodeCodePoint c = [v]) : c = v := by
  unfold encodeCodePoint at h
  split at h
  · simpa using h
  · simp at h

theorem upperCodePoint_ne_nil (ext : Nat → List Nat)
    (hext : ∀ c, 0x80 ≤ c → ext c ≠ [] ∧ ext c ≠ [0x58]) (c : Nat) :
    upperCodePoint ext c ≠ [] := by
  unfold upperCodePoint
  split
  · simp
  · split
    · simp
    · exact (hext c (by omega)).1

theorem upperCodePoint_X (ext : Nat → List Nat)
    (hext : ∀ c, 0x80 ≤ c → ext c ≠ [] ∧ ext c ≠ [0x58]) (c : Nat)
    (h : upperCodePoint ext c = [0x58]) : c = 0x58 ∨ c = 0x78 := by
  unfold upperCodePoint at h
  split at h
  · simp only [List.cons.injEq, and_true] at h
    omega
  · split at h
    · simp only [List.cons.injEq, and_true] at h
      omega
    · exact absurd h (hext c (by omega)).2

theorem toCodePoints_eq_nil (s : JsString) (h : toCodePoints s = []) : s = [] := by
  match s with
  | [] => rfl
  | [u] => simp [toCodePoints] at h
  | u :: v :: rest =>
    rw [toCodePoints] at h
    split at h <;> simp at h

theorem toCodePoints_singleton (s : JsString) (c : Nat) (hc : c < 0x10000)
    (h : toCodePoints s = [c]) : s = [c] := by
  match s with
  | [] => simp [toCodePoints] at h
  | [u] => simpa [toCodePoints] using h
  | u :: v :: rest =>
    rw [toCodePoints] at h
    split at h
    · simp only [List.cons.injEq] at h
      omega
    · simp only [List.cons.injEq] at h
      exact absurd (toCodePoints_eq_nil _ h.2) (by simp)

/-- The uppercase form is X only for X and x, for every table that sends no code point
outside ASCII to the empty string or to X. -/
theorem toUpperCase_eq_X (ext : Nat → List Nat)
    (hext : ∀ c, 0x80 ≤ c → ext c ≠ [] ∧ ext c ≠ [0x58]) (s : JsString) :
    toUpperCase ext s = js "X" ↔ s = js "X" ∨ s = js "x" := by
  have hX : js "X" = [0x58] := by decide
  have hx : js "x" = [0x78] := by decide
  rw [hX, hx]
  constructor
  · intro h
    unfold toUpperCase at h
    obtain ⟨c, hc, hcv⟩ := flatMap_singleton _ encodeCodePoint_ne_nil _ _ h
    have hc58 := encodeCodePoint_singleton _ _ hcv
    subst hc58
    obtain ⟨d, hd, hdv⟩ := flatMap_singleton _ (upperCodePoint_ne_nil ext hext) _ _ hc
    rcases upperCodePoint_X ext hext d hdv with rfl | rfl
    · exact Or.inl (toCodePoints_singleton s _ (by decide) hd)
    · exact Or.inr (toCodePoints_singleton s _ (by decide) hd)
  · rintro (rfl | rfl) <;>
      simp [toUpperCase, toCodePoints, upperCodePoint, encodeCodePoint]

/-- Every query starts with the assistant request. -/
theorem getChatGPTResponse_events_head {σ : Type} (svc : Service σ)
    (ASSISTANT_ID requestMessage : JsString) (s : σ) :
    ∃ tl, (getChatGPTResponse svc ASSISTANT_ID requestMessage s).events =
      .getAssistant ASSISTANT_ID :: tl := by
  rcases h1 : svc.getAssistant ASSISTANT_ID s with ⟨_ | assistant, s1⟩
  · exact ⟨_, congrArg Outcome.events
      (assistantRejected_outcome svc ASSISTANT_ID requestMessage s s1 _ h1)⟩
  · rcases h2 : svc.threadsCreate s1 with ⟨_ | thread, s2⟩
    · simp [getChatGPTResponse, Js.tryCatch, bind, Js.bind, retrieveAssistant, Js.request,
        createThread, Js.emit, Js.throw, h1, h2]
    · rcases h3 : svc.messagesCreate thread.id (js "user") requestMessage s2 with ⟨_ | _, s3⟩
      · simp [getChatGPTResponse, Js.tryCatch, bind, Js.bind, retrieveAssistant, Js.request,
          createThread, addMessageToThread, Js.emit, Js.throw, h1, h2, h3]
      · rcases h4 : svc.runsCreateAndPoll thread.id assistant.id s3 with ⟨_ | run, s4⟩
        · simp [getChatGPTResponse, Js.tryCatch, bind, Js.bind, retrieveAssistant, Js.request,
            createThread, addMessageToThread, createAndPollRun, Js.emit, Js.throw, h1, h2, h3, h4]
        · by_cases hstatus : run.status = js "completed"
          · rcases h5 : svc.messagesList run.thread_id s4 with ⟨_ | messages, s5⟩
            · simp [getChatGPTResponse, Js.tryCatch, bind, Js.bind, retrieveAssistant, Js.request,
                createThread, addMessageToThread, createAndPollRun, getAssistantResponse,
                Js.ofExcept, Js.emit, Js.throw, h1, h2, h3, h4, h5, hstatus]
            · cases hv : responseMessageValue messages <;>
              simp [getChatGPTResponse, Js.tryCatch, bind, Js.bind, retrieveAssistant, Js.request,
                createThread, addMessageToThread, createAndPollRun, getAssistantResponse,
                Js.ofExcept, Js.emit, Js.throw, h1, h2, h3, h4, h5, hstatus, hv, pure, Js.pure]
          · exact ⟨_, congrArg Outcome.events
              (notCompleted_outcome svc ASSISTANT_ID requestMessage s s1 s2 s3 s4
                assistant thread run h1 h2 h3 h4 hstatus)⟩

/-- Every message a query creates has role user and the request as content. -/
theorem getChatGPTResponse_user_message {σ : Type} (svc : Service σ)
    (ASSISTANT_ID requestMessage : JsString) (s : σ) (threadId role content : JsString)
    (h : Event.messagesCreate threadId role content ∈
      (getChatGPTResponse svc ASSISTANT_ID requestMessage s).events) :
    role = js "user" ∧ content = requestMessage := by
  rcases h1 : svc.getAssistant ASSISTANT_ID s with ⟨_ | assistant, s1⟩
  · rw [assistantRejected_outcome svc ASSISTANT_ID requestMessage s s1 _ h1] at h
    simp at h
  · rcases h2 : svc.threadsCreate s1 with ⟨_ | thread, s2⟩
    · simp [getChatGPTResponse, Js.tryCatch, bind, Js.bind, retrieveAssistant, Js.request,
        createThread, Js.emit, Js.throw, h1, h2] at h
    · rcases h3 : svc.messagesCreate thread.id (js "user") requestMessage s2 with ⟨_ | _, s3⟩
      · simp [getChatGPTResponse, Js.tryCatch, bind, Js.bind, retrieveAssistant, Js.request,
          createThread, addMessageToThread, Js.emit, Js.throw, h1, h2, h3] at h
        exact ⟨h.2.1, h.2.2⟩
      · rcases h4 : svc.runsCreateAndPoll thread.id assistant.id s3 with ⟨_ | run, s4⟩
        · simp [getChatGPTResponse, Js.tryCatch, bind, Js.bind, retrieveAssistant, Js.request,
            createThread, addMessageToThread, createAndPollRun, Js.emit, Js.throw,
            h1, h2, h3, h4] at h
          exact ⟨h.2.1, h.2.2⟩
        · by_cases hstatus : run.status = js "completed"
          · rcases h5 : svc.messagesList run.thread_id s4 with ⟨_ | messages, s5⟩
            · simp [getChatGPTResponse, Js.tryCatch, bind, Js.bind, retrieveAssistant, Js.request,
                createThread, addMessageToThread, createAndPollRun, getAssistantResponse,
                Js.ofExcept, Js.emit, Js.throw, h1, h2, h3, h4, h5, hstatus] at h
              exact ⟨h.2.1, h.2.2⟩
            · cases hv : responseMessageValue messages <;>
              · simp [getChatGPTResponse, Js.tryCatch, bind, Js.bind, retrieveAssistant,
                  Js.request, createThread, addMessageToThread, createAndPollRun,
                  getAssistantResponse, Js.ofExcept, Js.emit, Js.throw, h1, h2, h3, h4, h5,
                  hstatus, hv, pure, Js.pure] at h
                exact ⟨h.2.1, h.2.2⟩
          · rw [notCompleted_outcome svc ASSISTANT_ID requestMessage s s1 s2 s3 s4
              assistant thread run h1 h2 h3 h4 hstatus] at h
            simp at h
            exact ⟨h.2.1, h.2.2⟩

/-- A query whose assistant request and thread creation succeed creates, on that thread, a
message of role user with the request as content. -/
theorem getChatGPTResponse_forwards {σ : Type} (svc : Service σ)
    (ASSISTANT_ID requestMessage : JsString) (s s1 s2 : σ)
    (assistant : Assistant) (thread : Thread)
    (h1 : svc.getAssistant ASSISTANT_ID s = (.ok assistant, s1))
    (h2 : svc.threadsCreate s1 = (.ok thread, s2)) :
    Event.messagesCreate thread.id (js "user") requestMessage ∈
      (getChatGPTResponse svc ASSISTANT_ID requestMessage s).events := by
  rcases h3 : svc.messagesCreate thread.id (js "user") requestMessage s2 with ⟨_ | _, s3⟩
  · simp [getChatGPTResponse, Js.tryCatch, bind, Js.bind, retrieveAssistant, Js.request,
      createThread, addMessageToThread, Js.emit, Js.throw, h1, h2, h3]
  · rcases h4 : svc.runsCreateAndPoll thread.id assistant.id s3 with ⟨_ | run, s4⟩
    · simp [getChatGPTResponse, Js.tryCatch, bind, Js.bind, retrieveAssistant, Js.request,
        createThread, addMessageToThread, createAndPollRun, Js.emit, Js.throw, h1, h2, h3, h4]
    · by_cases hstatus : run.status = js "completed"
      · rcases h5 : svc.messagesList run.thread_id s4 with ⟨_ | messages, s5⟩
        · simp [getChatGPTResponse, Js.tryCatch, bind, Js.bind, retrieveAssistant, Js.request,
            createThread, addMessageToThread, createAndPollRun, getAssistantResponse,
            Js.ofExcept, Js.emit, Js.throw, h1, h2, h3, h4, h5, hstatus]
        · cases hv : responseMessageValue messages <;>
          simp [getChatGPTResponse, Js.tryCatch, bind, Js.bind, retrieveAssistant, Js.request,
            createThread, addMessageToThread, createAndPollRun, getAssistantResponse,
            Js.ofExcept, Js.emit, Js.throw, h1, h2, h3, h4, h5, hstatus, hv, pure, Js.pure]
      · rw [notCompleted_outcome svc ASSISTANT_ID requestMessage s s1 s2 s3 s4
          assistant thread run h1 h2 h3 h4 hstatus]
        simp

/-- A query that resolves has created a message of role user with the request as content. -/
theorem getChatGPTResponse_ok_forwards {σ : Type} (svc : Service σ)
    (ASSISTANT_ID requestMessage : JsString) (s : σ) (response : Value)
    (h : (getChatGPTResponse svc ASSISTANT_ID requestMessage s).result = .ok response) :
    ∃ threadId, Event.messagesCreate threadId (js "user") requestMessage ∈
      (getChatGPTResponse svc ASSISTANT_ID requestMessage s).events := by
  rcases h1 : svc.getAssistant ASSISTANT_ID s with ⟨_ | assistant, s1⟩
  · rw [assistantRejected_outcome svc ASSISTANT_ID requestMessage s s1 _ h1] at h
    cases h
  · rcases h2 : svc.threadsCreate s1 with ⟨_ | thread, s2⟩
    · simp [getChatGPTResponse, Js.tryCatch, bind, Js.bind, retrieveAssistant, Js.request,
        createThread, Js.emit, Js.throw, h1, h2] at h
    · exact ⟨thread.id, getChatGPTResponse_forwards svc ASSISTANT_ID requestMessage s s1 s2
        assistant thread h1 h2⟩

theorem askQuestion_head {σ : Type} (ext : Nat → List Nat) (svc : Service σ)
    (ASSISTANT_ID : JsString) (lines : List JsString) (s : σ) :
    ∃ tl, askQuestion ext svc ASSISTANT_ID lines s = .question questionText :: tl := by
  cases lines with
  | nil => exact ⟨[], rfl⟩
  | cons input lines => rw [askQuestion]; exact ⟨_, rfl⟩

theorem askQuestion_forward {σ : Type} (ext : Nat → List Nat) (svc : Service σ)
    (ASSISTANT_ID input : JsString) (lines : List JsString) (s : σ)
    (h : toUpperCase ext input ≠ js "X") :
    askQuestion ext svc ASSISTANT_ID (input :: lines) s =
      .question questionText :: ((getChatGPTResponse svc ASSISTANT_ID input s).events ++
        match (getChatGPTResponse svc ASSISTANT_ID input s).result with
        | .ok response =>
          .consoleLog (js "Response:") response ::
            askQuestion ext svc ASSISTANT_ID lines
              (getChatGPTResponse svc ASSISTANT_ID input s).state
        | .error e => [.unhandledRejection e]) := by
  rw [askQuestion, if_neg h]
  rcases getChatGPTResponse svc ASSISTANT_ID input s with ⟨_ | _, s1, ev⟩ <;> rfl

/-- C10: one round of askQuestion ends the session, with no remote call, exactly when the
uppercase form of the input is X, that is for the inputs X and x only; any other input is
passed to getChatGPTResponse as it is: once the assistant request and the thread creation
succeed, and so in every query that resolves, a message of role user with the input as
content is created, and no other message is; a response is logged, and the next round starts
with the question. -/
theorem askQuestion_step {σ : Type} (ext : Nat → List Nat)
    (hext : ∀ c, 0x80 ≤ c → ext c ≠ [] ∧ ext c ≠ [0x58])
    (svc : Service σ) (ASSISTANT_ID input : JsString) (lines : List JsString) (s : σ) :
    (askQuestion ext svc ASSISTANT_ID (input :: lines) s = [.question questionText, .close] ↔
        toUpperCase ext input = js "X") ∧
      (toUpperCase ext input = js "X" ↔ input = js "X" ∨ input = js "x") ∧
      (¬ (input = js "X" ∨ input = js "x") →
        askQuestion ext svc ASSISTANT_ID (input :: lines) s =
          .question questionText :: ((getChatGPTResponse svc ASSISTANT_ID input s).events ++
            match (getChatGPTResponse svc ASSISTANT_ID input s).result with
            | .ok response =>
              .consoleLog (js "Response:") response ::
                askQuestion ext svc ASSISTANT_ID lines
                  (getChatGPTResponse svc ASSISTANT_ID input s).state
            | .error e => [.unhandledRejection e])) ∧
      (∀ threadId role content : JsString,
        Event.messagesCreate threadId role content ∈
            (getChatGPTResponse svc ASSISTANT_ID input s).events →
          role = js "user" ∧ content = input) ∧
      (∀ (assistant : Assistant) (thread : Thread) (s1 s2 : σ),
        svc.getAssistant ASSISTANT_ID s = (.ok assistant, s1) →
        svc.threadsCreate s1 = (.ok thread, s2) →
          Event.messagesCreate thread.id (js "user") input ∈
            (getChatGPTResponse svc ASSISTANT_ID input s).events) ∧
      (∀ response : Value,
        (getChatGPTResponse svc ASSISTANT_ID input s).result = .ok response →
          ∃ threadId, Event.messagesCreate threadId (js "user") input ∈
            (getChatGPTResponse svc ASSISTANT_ID input s).events) ∧
      (∀ s1 : σ, ∃ tl,
        askQuestion ext svc ASSISTANT_ID lines s1 = .question questionText :: tl) := by
  have hiff := toUpperCase_eq_X ext hext input
  refine ⟨?_, hiff, ?_, ?_, ?_, ?_, ?_⟩
  · constructor
    · intro h
      by_contra hne
      rw [askQuestion_forward ext svc ASSISTANT_ID input lines s hne] at h
      obtain ⟨tl, htl⟩ := getChatGPTResponse_events_head svc ASSISTANT_ID input s
      rw [htl] at h
      simp at h
    · intro h
      rw [askQuestion, if_pos h]
  · intro h
    exact askQuestion_forward ext svc ASSISTANT_ID input lines s (fun hX => h (hiff.1 hX))
  · intro threadId role content h
    exact getChatGPTResponse_user_message svc ASSISTANT_ID input s threadId role content h
  · intro assistant thread s1 s2 h1 h2
    exact getChatGPTResponse_forwards svc ASSISTANT_ID input s s1 s2 assistant thread h1 h2
  · intro response h
    exact getChatGPTResponse_ok_forwards svc ASSISTANT_ID input s response h
  · intro s1
    exact askQuestion_head ext svc ASSISTANT_ID lines s1

/-- C5: when createAndPollRun returns a run whose status is not completed, getChatGPTResponse
resolves to the sentinel string, and the remote calls issued are the four up to
create-and-poll: no list-messages call is made. -/
theorem getChatGPTResponse_not_completed {σ : Type} (svc : Service σ)
    (ASSISTANT_ID requestMessage : JsString) (s0 s1 s2 s3 s4 : σ)
    (assistant : Assistant) (thread : Thread) (run : Run)
    (h1 : svc.getAssistant ASSISTANT_ID s0 = (.ok assistant, s1))
    (h2 : svc.threadsCreate s1 = (.ok thread, s2))
    (h3 : svc.messagesCreate thread.id (js "user") requestMessage s2 = (.ok (), s3))
    (h4 : svc.runsCreateAndPoll thread.id assistant.id s3 = (.ok run, s4))
    (hstatus : run.status ≠ js "completed") :
    getChatGPTResponse svc ASSISTANT_ID requestMessage s0 =
      ⟨.ok (.str (js "Run did not complete successfully.")), s4,
        [.getAssistant ASSISTANT_ID, .threadsCreate,
         .messagesCreate thread.id (js "user") requestMessage,
         .runsCreateAndPoll thread.id assistant.id]⟩ :=
  notCompleted_outcome svc ASSISTANT_ID requestMessage s0 s1 s2 s3 s4 assistant thread run
    h1 h2 h3 h4 hstatus

/-- C7 (amended): when the assistant request is rejected, whatever the cause, getChatGPTResponse
rejects with the generic Error of message "Error retrieving assistant", and the only remote
call issued is the assistant request: no thread is created and no later call is made. -/
theorem getChatGPTResponse_assistant_rejected {σ : Type} (svc : Service σ)
    (ASSISTANT_ID requestMessage : JsString) (s0 s1 : σ) (cause : JsError)
    (h1 : svc.getAssistant ASSISTANT_ID s0 = (.error cause, s1)) :
    getChatGPTResponse svc ASSISTANT_ID requestMessage s0 =
      ⟨.error (newError (js "Error retrieving assistant")), s1,
        [.getAssistant ASSISTANT_ID,
         .consoleError (js "Error retrieving assistant:") (.value (rejectionDetail cause)),
         .consoleError (js "Error:") (.error (newError (js "Error retrieving assistant")))]⟩ :=
  assistantRejected_outcome svc ASSISTANT_ID requestMessage s0 s1 cause h1

/-! ## The sanitizer, and the claims at concrete inputs -/

theorem everyOpenerMatches_append (a b : JsString) (h : everyOpenerMatches (a ++ b) = true) :
    everyOpenerMatches b = true := by
  induction a with
  | nil => exact h
  | cons c a ih =>
    rw [List.cons_append, everyOpenerMatches, Bool.and_eq_true] at h
    exact ih h.2

/-- When every 【 starts a marker, no 【 is left after one pass. -/
theorem opener_not_mem_removeSourceReferences :
    ∀ (n : Nat) (x : JsString), x.length ≤ n → everyOpenerMatches x = true →
      0x3010 ∉ removeSourceReferences x := by
  intro n
  induction n with
  | zero =>
    intro x hx _
    have : x = [] := List.length_eq_zero.1 (Nat.le_zero.1 hx)
    subst this
    simp [removeSourceReferences, replaceFrom]
  | succ n ih =>
    intro x hx hall
    cases x with
    | nil => simp [removeSourceReferences, replaceFrom]
    | cons c xs =>
      by_cases hs : StartsWithMarker (c :: xs)
      · obtain ⟨m, rest, hm, hmr⟩ := hs
        rw [hmr, removeSourceReferences_marker m rest hm]
        rw [hmr] at hall
        refine ih rest ?_ (everyOpenerMatches_append m rest hall)
        have h1 := isMarker_length_pos m hm
        have h2 : (c :: xs).length = m.length + rest.length := by rw [hmr]; simp
        simp only [List.length_cons] at h2 hx
        omega
      · rw [removeSourceReferences_keep c xs hs]
        rw [everyOpenerMatches, Bool.and_eq_true, Bool.or_eq_true] at hall
        have hc : c ≠ 0x3010 := by
          rcases hall.1 with h | h
          · simpa using h
          · exfalso
            obtain ⟨k, hk⟩ := Option.isSome_iff_exists.1 h
            obtain ⟨m, rest, hm, hmr, -⟩ := matchTerms_some _ _ hk
            exact hs ⟨m, rest, hm, hmr⟩
        intro hmem
        rcases List.mem_cons.1 hmem with h | h
        · exact hc h.symm
        · exact ih xs (by simpa using hx) hall.2 h

theorem containsMarker_opener (y : JsString) (h : ContainsMarker y) : 0x3010 ∈ y := by
  obtain ⟨a, m, b, ⟨d1, d2, -, -, -, -, rfl⟩, rfl⟩ := h
  simp

/-- C1 (amended): a second pass of removeSourceReferences changes nothing exactly when the
once-sanitised text contains no citation marker; this is the case whenever every 【 of the
input starts a marker. -/
theorem removeSourceReferences_idempotent_iff (x : JsString) :
    (removeSourceReferences (removeSourceReferences x) = removeSourceReferences x ↔
        ¬ ContainsMarker (removeSourceReferences x)) ∧
      (everyOpenerMatches x = true →
        removeSourceReferences (removeSourceReferences x) = removeSourceReferences x) := by
  refine ⟨removeSourceReferences_eq_self_iff _, fun h => ?_⟩
  refine (removeSourceReferences_eq_self_iff _).2 (fun hc => ?_)
  exact opener_not_mem_removeSourceReferences x.length x (Nat.le_refl _) h
    (containsMarker_opener _ hc)

/-- C1 (witness): a text whose every 【 starts a marker. -/
theorem removeSourceReferences_idempotent_iff_witness :
    everyOpenerMatches (js "a【1:2†source】b【30:4†source】") = true ∧
      removeSourceReferences (removeSourceReferences (js "a【1:2†source】b【30:4†source】")) =
        removeSourceReferences (js "a【1:2†source】b【30:4†source】") :=
  ⟨by decide, (removeSourceReferences_idempotent_iff _).2 (by decide)⟩

/-- C1 (counterexample): on a marker nested inside the digits of another marker the first
pass leaves a marker behind, which the second pass removes. -/
theorem removeSourceReferences_not_idempotent :
    removeSourceReferences (js "【1:【2:3†source】2†source】") = js "【1:2†source】" ∧
      removeSourceReferences (removeSourceReferences (js "【1:【2:3†source】2†source】")) = [] ∧
      removeSourceReferences (removeSourceReferences (js "【1:【2:3†source】2†source】")) ≠
        removeSourceReferences (js "【1:【2:3†source】2†source】") := by
  decide

/-- C2: removeSourceReferences deletes each leftmost non-overlapping citation marker and keeps
every other code unit in order; a text containing no marker is returned unchanged. -/
theorem removeSourceReferences_spec (x : JsString) :
    (∀ y, SpecSanitized x y ↔ y = removeSourceReferences x) ∧
      (¬ ContainsMarker x → removeSourceReferences x = x) := by
  refine ⟨fun y => ⟨specSanitized_unique x y, ?_⟩, (removeSourceReferences_eq_self_iff x).2⟩
  rintro rfl
  exact specSanitized_removeSourceReferences x.length x (Nat.le_refl _)

/-- C2 (witness): a marker between two letters is deleted; a text without marker is unchanged. -/
theorem removeSourceReferences_spec_witness :
    SpecSanitized (js "a【12:345†source】b") (js "ab") ∧
      removeSourceReferences (js "hello") = js "hello" :=
  ⟨((removeSourceReferences_spec (js "a【12:345†source】b")).1 (js "ab")).2 (by decide),
    (removeSourceReferences_spec (js "hello")).2
      ((removeSourceReferences_eq_self_iff (js "hello")).1 (by decide))⟩

/-- C5 (witness): a run that ends with status failed. -/
theorem getChatGPTResponse_not_completed_witness :
    getChatGPTResponse (scripted failedScript) (js "asst_1") (js "hi") 0 =
      ⟨.ok (.str (js "Run did not complete successfully.")), 4,
        [.getAssistant (js "asst_1"), .threadsCreate,
         .messagesCreate (js "thread_1") (js "user") (js "hi"),
         .runsCreateAndPoll (js "thread_1") (js "asst_1")]⟩ :=
  getChatGPTResponse_not_completed (scripted failedScript) (js "asst_1") (js "hi") 0 1 2 3 4
    ⟨js "asst_1"⟩ ⟨js "thread_1"⟩ ⟨js "failed", js "thread_1"⟩ rfl rfl rfl rfl (by decide)

/-- C6 (witness): a completed run on a thread whose first message is the assistant reply. -/
theorem getChatGPTResponse_completed_witness :
    (getChatGPTResponse (scripted (sampleScript [⟨js "assistant", [textBlock "ok【3:7†source】"], 2⟩,
        ⟨js "user", [textBlock "hi"], 1⟩])) (js "asst_1") (js "hi") 0).events.filter
          Event.isRemote =
        [.getAssistant (js "asst_1"), .threadsCreate,
         .messagesCreate (js "thread_1") (js "user") (js "hi"),
         .runsCreateAndPoll (js "thread_1") (js "asst_1"), .messagesList (js "thread_1")] ∧
      (getChatGPTResponse (scripted (sampleScript [⟨js "assistant", [textBlock "ok【3:7†source】"], 2⟩,
        ⟨js "user", [textBlock "hi"], 1⟩])) (js "asst_1") (js "hi") 0).result =
        .ok (.str (removeSourceReferences (js "ok【3:7†source】"))) :=
  have h := getChatGPTResponse_completed
    (scripted (sampleScript [⟨js "assistant", [textBlock "ok【3:7†source】"], 2⟩,
      ⟨js "user", [textBlock "hi"], 1⟩])) (js "asst_1") (js "hi") 0 1 2 3 4 5
    ⟨js "asst_1"⟩ ⟨js "thread_1"⟩ ⟨js "completed", js "thread_1"⟩ _ rfl rfl rfl rfl rfl rfl
  ⟨h.1, h.2.2 _ rfl⟩

/-- C7 (witness): the assistant request is rejected with status 404. -/
theorem getChatGPTResponse_assistant_rejected_witness :
    getChatGPTResponse (scripted notFoundScript) (js "asst_1") (js "hi") 0 =
      ⟨.error (newError (js "Error retrieving assistant")), 1,
        [.getAssistant (js "asst_1"),
         .consoleError (js "Error retrieving assistant:") (.value (.other 404)),
         .consoleError (js "Error:") (.error (newError (js "Error retrieving assistant")))]⟩ :=
  getChatGPTResponse_assistant_rejected (scripted notFoundScript) (js "asst_1") (js "hi") 0 1 _ rfl

/-- C7 (counterexample): on a 404 rejection the error of getChatGPTResponse is the generic
Error, not an error named NotFoundError. -/
theorem getChatGPTResponse_not_NotFoundError :
    (getChatGPTResponse (scripted notFoundScript) (js "asst_1") (js "hi") 0).result =
        .error (newError (js "Error retrieving assistant")) ∧
      ¬ ∃ e : JsError,
        (getChatGPTResponse (scripted notFoundScript) (js "asst_1") (js "hi") 0).result =
          .error e ∧ e.name = js "NotFoundError" := by
  refine ⟨rfl, ?_⟩
  rintro ⟨e, he, hname⟩
  have h : (getChatGPTResponse (scripted notFoundScript) (js "asst_1") (js "hi") 0).result =
      .error (newError (js "Error retrieving assistant")) := rfl
  rw [h] at he
  injection he with he
  subst he
  revert hname
  decide

/-- C3 (witness): of two assistant messages the first in list order is returned. -/
theorem getAssistantResponse_first_assistant_witness :
    (getAssistantResponse (scripted (sampleScript [⟨js "user", [textBlock "later"], 3⟩,
        ⟨js "assistant", [textBlock "new"], 2⟩, ⟨js "assistant", [textBlock "old"], 1⟩]))
      (js "thread_1") 0).result = .ok (.str (js "new")) :=
  (getAssistantResponse_first_assistant
    (scripted (sampleScript [⟨js "user", [textBlock "later"], 3⟩,
      ⟨js "assistant", [textBlock "new"], 2⟩, ⟨js "assistant", [textBlock "old"], 1⟩]))
    (js "thread_1") 0 1 [⟨js "user", [textBlock "later"], 3⟩]
    [⟨js "assistant", [textBlock "old"], 1⟩] ⟨js "assistant", [textBlock "new"], 2⟩
    (textBlock "new") [] ⟨.str (js "new")⟩ rfl (by decide) rfl rfl rfl).1

/-- C3 (counterexample): the list contains an assistant-role message whose first content
block is text, but the first assistant-role message starts with an image block, and
getAssistantResponse throws a TypeError instead of returning a text value. -/
theorem getAssistantResponse_later_text_segment :
    (∃ m ∈ [(⟨js "assistant", [imageBlock], 2⟩ : Message),
          ⟨js "assistant", [textBlock "a"], 1⟩],
        m.role = js "assistant" ∧ ∃ b t, m.content.head? = some b ∧ b.text = some t) ∧
      (getAssistantResponse (scripted (sampleScript [⟨js "assistant", [imageBlock], 2⟩,
          ⟨js "assistant", [textBlock "a"], 1⟩])) (js "thread_1") 0).result =
        .error (typeError "value") :=
  ⟨⟨⟨js "assistant", [textBlock "a"], 1⟩, by decide, rfl, textBlock "a", ⟨.str (js "a")⟩,
    rfl, rfl⟩, rfl⟩

/-- C8 (witness): the messages user hi, assistant 【0:1†source】hello yield hello. -/
theorem extract_then_sanitize_witness :
    (getAssistantResponse (scripted (sampleScript [⟨js "user", [textBlock "hi"], 1⟩,
        ⟨js "assistant", [textBlock "【0:1†source】hello"], 2⟩])) (js "thread_1") 0).result.map
      processResponseMessage = .ok (.str (js "hello")) :=
  extract_then_sanitize
    (scripted (sampleScript [⟨js "user", [textBlock "hi"], 1⟩,
      ⟨js "assistant", [textBlock "【0:1†source】hello"], 2⟩]))
    (js "thread_1") 0 1 [⟨js "user", [textBlock "hi"], 1⟩] []
    ⟨js "assistant", [textBlock "【0:1†source】hello"], 2⟩ (js "text") []
    (js "【0:1†source】") (js "hello") rfl (by decide) rfl rfl
    ⟨[0x30], [0x31], by decide, by decide, by decide, by decide, by decide⟩
    ((removeSourceReferences_eq_self_iff (js "hello")).1 (by decide))

/-- C8 (counterexample): the first text segment of the first assistant-role message is a
marker followed by hello, but it is the second content block, behind an image block: line 112
reads content[0].text.value and throws a TypeError, so hello is not the result. -/
theorem extract_then_sanitize_image_first :
    ([imageBlock, textBlock "【0:1†source】hello"].filterMap ContentBlock.text).head? =
        some ⟨.str (js "【0:1†source】" ++ js "hello")⟩ ∧
      IsMarker (js "【0:1†source】") ∧
      ¬ ContainsMarker (js "hello") ∧
      (getAssistantResponse (scripted (sampleScript [⟨js "user", [textBlock "hi"], 1⟩,
          ⟨js "assistant", [imageBlock, textBlock "【0:1†source】hello"], 2⟩]))
        (js "thread_1") 0).result.map processResponseMessage = .error (typeError "value") :=
  ⟨by decide, ⟨[0x30], [0x31], by decide, by decide, by decide, by decide, by decide⟩,
    (removeSourceReferences_eq_self_iff (js "hello")).1 (by decide), rfl⟩

/-- C4 (failing input): on a completed run whose thread holds no assistant-role message,
getChatGPTResponse rejects with the TypeError of reading content from undefined. -/
theorem getChatGPTResponse_no_assistant_message :
    (getChatGPTResponse (scripted (sampleScript [⟨js "user", [textBlock "hi"], 1⟩]))
        (js "asst_1") (js "hi") 0).result = .error (typeError "content") ∧
      (typeError "content").name = js "TypeError" ∧
      (typeError "content").name ≠ js "NoAssistantReplyError" :=
  ⟨rfl, rfl, by decide⟩

/-- C9 (failing input): after a query that fails the loop issues no further question, although
a further line is waiting. -/
theorem askQuestion_stops_after_failed_query :
    askQuestion asciiOnly (scripted notFoundScript) (js "asst_1") [js "hi", js "again"] 0 =
      [.question questionText, .getAssistant (js "asst_1"),
       .consoleError (js "Error retrieving assistant:") (.value (.other 404)),
       .consoleError (js "Error:") (.error (newError (js "Error retrieving assistant"))),
       .unhandledRejection (newError (js "Error retrieving assistant"))] := by
  decide

/-- The table asciiOnly sends no code point outside ASCII to the empty string or to X. -/
theorem asciiOnly_table : ∀ c, 0x80 ≤ c → asciiOnly c ≠ [] ∧ asciiOnly c ≠ [0x58] := by
  intro c hc
  constructor
  · simp [asciiOnly]
  · simp only [asciiOnly, ne_eq, List.cons.injEq, and_true]
    omega

/-- C10 (witness): x ends the session; x between blanks and the empty line do not, and x
between blanks is the content of the user message created. -/
theorem askQuestion_step_witness :
    askQuestion asciiOnly (scripted failedScript) (js "asst_1") [js "x", js "hi"] 0 =
        [.question questionText, .close] ∧
      askQuestion asciiOnly (scripted failedScript) (js "asst_1") [js " x ", js "X"] 0 ≠
        [.question questionText, .close] ∧
      askQuestion asciiOnly (scripted failedScript) (js "asst_1") [[], js "X"] 0 ≠
        [.question questionText, .close] ∧
      Event.messagesCreate (js "thread_1") (js "user") (js " x ") ∈
        (getChatGPTResponse (scripted failedScript) (js "asst_1") (js " x ") 0).events :=
  ⟨((askQuestion_step asciiOnly asciiOnly_table (scripted failedScript) (js "asst_1") (js "x")
      [js "hi"] 0).1.2
      ((askQuestion_step asciiOnly asciiOnly_table (scripted failedScript) (js "asst_1") (js "x")
        [js "hi"] 0).2.1.2 (Or.inr rfl))),
    fun h => absurd ((askQuestion_step asciiOnly asciiOnly_table (scripted failedScript)
      (js "asst_1") (js " x ") [js "X"] 0).2.1.1
        ((askQuestion_step asciiOnly asciiOnly_table (scripted failedScript)
          (js "asst_1") (js " x ") [js "X"] 0).1.1 h)) (by decide),
    fun h => absurd ((askQuestion_step asciiOnly asciiOnly_table (scripted failedScript)
      (js "asst_1") [] [js "X"] 0).2.1.1
        ((askQuestion_step asciiOnly asciiOnly_table (scripted failedScript)
          (js "asst_1") [] [js "X"] 0).1.1 h)) (by decide),
    (askQuestion_step asciiOnly asciiOnly_table (scripted failedScript)
      (js "asst_1") (js " x ") [js "X"] 0).2.2.2.2.1 ⟨js "asst_1"⟩ ⟨js "thread_1"⟩ 1 2 rfl rfl⟩
